import Mathlib

/-!
Verification of the credit-card chatbot core
(`src/query_generator.py`, `src/src/chatbot.py`).

The remote collaborators (the two language-model chains, the database
store) are modelled as function parameters; a call that can raise is a
function into `Except String _`, an `Except.error` value standing for a
raised Python exception that propagates.  Strings are compared through
explicit `List Char` scans so that all predicates compute.
-/

/-- `listStartsWith pat s` is Python's `s.startswith(pat)` viewed on
character lists: `pat` is a prefix of `s`. -/
def listStartsWith : List Char → List Char → Bool
  | [], _ => true
  | _ :: _, [] => false
  | p :: ps, c :: cs => p == c && listStartsWith ps cs

/-- `listContains s pat` is Python's `pat in s` on character lists:
`pat` occurs contiguously inside `s`. -/
def listContains : List Char → List Char → Bool
  | [], pat => listStartsWith pat []
  | c :: t, pat => listStartsWith pat (c :: t) || listContains t pat

/-- Python `pat in s` for strings. -/
def pyContains (s pat : String) : Bool :=
  listContains s.data pat.data

/-- Python `s.startswith(pre)` for strings. -/
def pyStartsWith (s pre : String) : Bool :=
  listStartsWith pre.data s.data

/-- Python `s.lower()` (ASCII case folding; the only lowered keyword the
code tests for is the ASCII word "active"). -/
def pyLowerData (s : String) : List Char :=
  s.data.map Char.toLower

/-- The guard of `SQLQueryGenerator.generate_query`:
`"アクティブ" in question or "active" in question.lower()`. -/
def isActiveQuestion (question : String) : Bool :=
  pyContains question "アクティブ" || listContains (pyLowerData question) "active".data

/-- `SQLQueryGenerator.generate_query`.  `chain` models
`self.chain.invoke` (the generic Langchain SQL chain) and `custom`
models `self.custom_chain.run` (the custom-prompt chain); either remote
call may raise, modelled by `Except.error`.  An `Except.error` result of
`generate_query` is an exception propagating to the caller. -/
def generate_query (chain custom : String → Except String String)
    (question : String) : Except String String :=
  if isActiveQuestion question then
    custom question
  else
    match chain question with
    | Except.ok q => Except.ok q
    | Except.error _ => custom question

/-- `generate_query` instrumented with a flag recording whether the
generic chain (`self.chain.invoke`) was invoked on this question. -/
def generate_query_tr (chain custom : String → Except String String)
    (question : String) : Except String String × Bool :=
  if isActiveQuestion question then
    (custom question, false)
  else
    match chain question with
    | Except.ok q => (Except.ok q, true)
    | Except.error _ => (custom question, true)

theorem generate_query_eq_tr (chain custom : String → Except String String)
    (question : String) :
    generate_query chain custom question = (generate_query_tr chain custom question).1 := by
  unfold generate_query generate_query_tr
  by_cases h : isActiveQuestion question
  · simp [h]
  · simp only [h, if_neg, Bool.false_eq_true]
    cases chain question <;> simp

/-- Shape of a pandas DataFrame as the visualization code inspects it:
`len(df)` is `nrows`, `len(df.columns)` is `ncols`. -/
structure DFrame where
  nrows : Nat
  ncols : Nat
deriving DecidableEq, Repr

/-- An element of a Python list result, as `_generate_visualization`
distinguishes them: a dict (carrying its keys) or a non-dict row of a
given width (a scalar has width 1). -/
inductive PyItem where
  | pdict (keys : List String)
  | pitem (width : Nat)
deriving DecidableEq, Repr

/-- A Python value flowing out of `execute_query` and into
`process_question` / `_generate_visualization`: a string, a list, or a
DataFrame. -/
inductive PyVal where
  | str (s : String)
  | pylist (l : List PyItem)
  | dataFrame (d : DFrame)
deriving DecidableEq, Repr

/-- `SQLQueryGenerator.execute_query`: run the query against the store
(`self.db.run`, modelled by `run`, which may raise); any exception is
caught and turned into the string `"Error executing query: " ++ msg`. -/
def execute_query (run : String → Except String PyVal) (query : String) : PyVal :=
  match run query with
  | Except.ok r => r
  | Except.error e => PyVal.str ("Error executing query: " ++ e)

/-- `SQLQueryGenerator.execute_query` over a stateful store: the real
`self.db.run` executes against a mutable SQLite database, so here `run`
is a state transformer on an abstract store state `S`.  The method
forwards every query string to `run` unchanged and catches any raised
exception, exactly as the stateless version. -/
def execute_query_st {S : Type} (run : S → String → Except String PyVal × S)
    (s : S) (query : String) : PyVal × S :=
  match run s query with
  | (Except.ok r, s₁) => (r, s₁)
  | (Except.error e, s₁) => (PyVal.str ("Error executing query: " ++ e), s₁)

theorem listStartsWith_append (p q l : List Char)
    (h : listStartsWith p q = true) : listStartsWith p (q ++ l) = true := by
  induction p generalizing q with
  | nil => simp [listStartsWith]
  | cons a ps ih =>
    cases q with
    | nil => simp [listStartsWith] at h
    | cons b qs =>
      simp only [listStartsWith, Bool.and_eq_true] at h
      simp only [List.cons_append, listStartsWith, Bool.and_eq_true]
      exact ⟨h.1, ih qs h.2⟩

theorem data_append (s t : String) : (s ++ t).data = s.data ++ t.data := by
  cases s with
  | mk l₁ => cases t with
    | mk l₂ => rfl

/-- Every error value produced by `execute_query` starts with `"Error"`. -/
theorem error_string_startsWith (m : String) :
    pyStartsWith ("Error executing query: " ++ m) "Error" = true := by
  unfold pyStartsWith
  rw [data_append]
  exact listStartsWith_append _ _ _ (by decide)

/-- The chart kind a rendering helper of `CreditCardChatbot` produces.
The base64 pixel payload is not part of any contract; the selection of
the chart kind is, so the helpers are modelled at that level. -/
inductive Chart where
  | line
  | pie
  | bar
deriving DecidableEq, Repr

/-- `CreditCardChatbot._create_time_series_plot`: both of its branches
(date column found or index fallback) draw a line plot. -/
def create_time_series_plot (_df : DFrame) : Chart :=
  Chart.line

/-- `CreditCardChatbot._create_bar_chart`: both of its branches draw a
bar chart. -/
def create_bar_chart (_df : DFrame) : Chart :=
  Chart.bar

/-- `CreditCardChatbot._create_comparison_plot`: a pie chart when the
DataFrame has exactly two columns, otherwise it delegates to
`_create_bar_chart`. -/
def create_comparison_plot (df : DFrame) : Chart :=
  if df.ncols = 2 then Chart.pie else create_bar_chart df

/-- Column set pandas derives from a list of dicts: the union of the
dicts' keys in first-seen order. -/
def keysUnion (rows : List PyItem) : List String :=
  rows.foldl
    (fun acc it =>
      match it with
      | PyItem.pdict ks => acc ++ ks.filter (fun k => ¬ acc.contains k)
      | PyItem.pitem _ => acc)
    []

/-- The conversion prologue of `CreditCardChatbot._generate_visualization`:
a DataFrame passes through; a non-empty list whose first element is a
dict becomes `pd.DataFrame(result)`; a non-empty list of non-dict rows
becomes `pd.DataFrame(result, columns=["Value"])`, which raises (and is
caught, yielding `None`) unless the rows have width 1; everything else
(strings, the empty list) yields `None`. -/
def toDF : PyVal → Option DFrame
  | PyVal.dataFrame d => some d
  | PyVal.pylist [] => none
  | PyVal.pylist (PyItem.pdict ks :: t) =>
    some ⟨(PyItem.pdict ks :: t).length, (keysUnion (PyItem.pdict ks :: t)).length⟩
  | PyVal.pylist (PyItem.pitem w :: t) =>
    if w = 1 then some ⟨(PyItem.pitem w :: t).length, 1⟩ else none
  | PyVal.str _ => none

/-- The time-series keyword test of `_generate_visualization`:
`"推移" in question or "トレンド" in question or "変化" in question`. -/
def hasTimeKw (question : String) : Bool :=
  pyContains question "推移" || pyContains question "トレンド" || pyContains question "変化"

/-- The comparison keyword test of `_generate_visualization`:
`"比較" in question or "割合" in question or "分布" in question`. -/
def hasCompKw (question : String) : Bool :=
  pyContains question "比較" || pyContains question "割合" || pyContains question "分布"

/-- `CreditCardChatbot._generate_visualization`: convert the query
result to a DataFrame (or give up), return nothing for a scalar
(`len(df) <= 1 and len(df.columns) <= 1`), then dispatch on question
keywords — time-series first, comparison second, then a default bar
chart for tables with more than one row and at least two columns. -/
def generate_visualization (question : String) (query_result : PyVal) : Option Chart :=
  match toDF query_result with
  | none => none
  | some df =>
    if df.nrows ≤ 1 ∧ df.ncols ≤ 1 then
      none
    else if hasTimeKw question then
      some (create_time_series_plot df)
    else if hasCompKw question then
      some (create_comparison_plot df)
    else if 1 < df.nrows ∧ 2 ≤ df.ncols then
      some (create_bar_chart df)
    else
      none

/-- The orchestrator's error test in `process_question`:
`isinstance(query_result, str) and query_result.startswith("Error")`. -/
def isErrorResult : PyVal → Bool
  | PyVal.str s => pyStartsWith s "Error"
  | PyVal.pylist _ => false
  | PyVal.dataFrame _ => false

/-- Python `str()` as applied to a query result before it is embedded
in a prompt or an f-string.  On the error path the value is always a
string, where `str` is the identity; the textual rendering of lists and
DataFrames is abstracted (it only feeds the opaque narration call). -/
def pyvalStr : PyVal → String
  | PyVal.str s => s
  | PyVal.pylist _ => "[...]"
  | PyVal.dataFrame _ => "<DataFrame>"

/-- The dict returned by `CreditCardChatbot.process_question`. -/
structure ChatResponse where
  answer : String
  sql_query : String
  visualization : Option Chart
deriving DecidableEq, Repr

/-- `CreditCardChatbot.process_question`.  `chain`/`custom` are the two
query-generation chains, `run` the store, and `respond` models
`self.response_chain.run` (the narration service), which may raise; an
`Except.error` result of `process_question` is an exception escaping to
the caller.  On an error-string result the method returns the fixed
apology embedding the error text, with no visualization and no
narration call. -/
def process_question (chain custom : String → Except String String)
    (run : String → Except String PyVal)
    (respond : String → String → String → Except String String)
    (question : String) : Except String ChatResponse :=
  match generate_query chain custom question with
  | Except.error e => Except.error e
  | Except.ok sql_query =>
    let query_result := execute_query run sql_query
    if isErrorResult query_result then
      Except.ok
        ⟨"申し訳ありません。クエリの実行中にエラーが発生しました: " ++ pyvalStr query_result,
          sql_query, none⟩
    else
      let visualization := generate_visualization question query_result
      match respond question sql_query (pyvalStr query_result) with
      | Except.error e => Except.error e
      | Except.ok response => Except.ok ⟨response, sql_query, visualization⟩

/-- A string query result never yields a visualization: `toDF` rejects it. -/
theorem viz_str_none (question s : String) :
    generate_visualization question (PyVal.str s) = none := by
  rfl

/-! Concrete collaborators used by witnesses and counterexamples. -/

/-- A store in which one query succeeds and every other raises. -/
def demoStore : String → Except String PyVal := fun q =>
  if q = "SELECT COUNT(*) FROM users" then Except.ok (PyVal.str "[(42,)]")
  else Except.error "no such table: missing"

/-- A stateful store whose state is its row count; it accepts a DELETE
(emptying the table) and answers every other query read-only. -/
def deleteStore : Nat → String → Except String PyVal × Nat := fun n q =>
  if q = "DELETE FROM users" then (Except.ok (PyVal.str ""), 0)
  else (Except.ok (PyVal.str "[]"), n)

/-- A store that always raises. -/
def badStore : String → Except String PyVal := fun _ =>
  Except.error "database is locked"

/-- A store that always succeeds, with a result string that happens to
begin with "Error". -/
def errorStringStore : String → Except String PyVal := fun _ =>
  Except.ok (PyVal.str "Error: 0 rows")

/-- A generic chain that always raises. -/
def chainDown : String → Except String String := fun _ =>
  Except.error "generic translation failed"

/-- A custom chain that always raises. -/
def customDown : String → Except String String := fun _ =>
  Except.error "fallback failed"

/-- A chain that always returns one fixed query. -/
def okChain : String → Except String String := fun _ =>
  Except.ok "SELECT COUNT(*) FROM users"

/-- A narration service that always raises. -/
def downNarration : String → String → String → Except String String := fun _ _ _ =>
  Except.error "narration service unavailable"

/-- A narration service that always answers. -/
def okNarration : String → String → String → Except String String := fun _ _ _ =>
  Except.ok "ユーザー数は42人です。"

/-- C4: for every query string, `execute_query` never raises to its
caller — it is a total function — and on a store failure it returns the
error value carrying the underlying message, while on success it
returns the store's result unchanged. -/
theorem c4_execute_total (run : String → Except String PyVal) (q m : String) (v : PyVal) :
    (run q = Except.error m →
      execute_query run q = PyVal.str ("Error executing query: " ++ m))
    ∧ (run q = Except.ok v → execute_query run q = v) := by
  constructor <;> intro h <;> simp [execute_query, h]

/-- C4 witness: `execute_query` on `demoStore`, on a failing and on a
succeeding query. -/
theorem c4_execute_total_witness :
    (demoStore "SELECT * FROM ghosts" = Except.error "no such table: missing"
      ∧ execute_query demoStore "SELECT * FROM ghosts"
          = PyVal.str ("Error executing query: " ++ "no such table: missing"))
    ∧ (demoStore "SELECT COUNT(*) FROM users" = Except.ok (PyVal.str "[(42,)]")
      ∧ execute_query demoStore "SELECT COUNT(*) FROM users" = PyVal.str "[(42,)]") :=
  ⟨⟨by rfl,
      (c4_execute_total demoStore "SELECT * FROM ghosts" "no such table: missing"
        (PyVal.str "")).1 (by rfl)⟩,
    ⟨by rfl,
      (c4_execute_total demoStore "SELECT COUNT(*) FROM users" "x"
        (PyVal.str "[(42,)]")).2 (by rfl)⟩⟩

/-- C6: for every result table with at most one row and at most one
column, `_generate_visualization` returns nothing, whatever the
question says. -/
theorem c6_scalar_no_chart (question : String) (d : DFrame)
    (hr : d.nrows ≤ 1) (hc : d.ncols ≤ 1) :
    generate_visualization question (PyVal.dataFrame d) = none := by
  unfold generate_visualization toDF
  simp [hr, hc]

/-- C6 witness: a 1×1 table with a question containing every chart
keyword still gets no chart. -/
theorem c6_scalar_no_chart_witness :
    (1 : Nat) ≤ 1 ∧ (1 : Nat) ≤ 1
    ∧ generate_visualization "推移とトレンドの変化、比較・割合・分布"
        (PyVal.dataFrame ⟨1, 1⟩) = none :=
  ⟨by decide, by decide,
    c6_scalar_no_chart "推移とトレンドの変化、比較・割合・分布" ⟨1, 1⟩
      (by decide) (by decide)⟩

/-- C8: for every question containing "active" (case-insensitively) or
"アクティブ", `generate_query` routes to the custom rule-encoding chain
and never invokes the generic translation chain. -/
theorem c8_active_routes_custom (chain custom : String → Except String String)
    (question : String) (h : isActiveQuestion question = true) :
    generate_query chain custom question = custom question
    ∧ (generate_query_tr chain custom question).2 = false := by
  unfold generate_query generate_query_tr
  simp [h]

/-- C8 witness: an uppercase-English active question and a Japanese
active question both route to the custom chain, generic chain untouched. -/
theorem c8_active_routes_custom_witness :
    (isActiveQuestion "How many ACTIVE users last month?" = true
      ∧ generate_query chainDown okChain "How many ACTIVE users last month?"
          = okChain "How many ACTIVE users last month?"
      ∧ (generate_query_tr chainDown okChain "How many ACTIVE users last month?").2 = false)
    ∧ (isActiveQuestion "アクティブユーザー数の推移" = true
      ∧ generate_query chainDown okChain "アクティブユーザー数の推移"
          = okChain "アクティブユーザー数の推移"
      ∧ (generate_query_tr chainDown okChain "アクティブユーザー数の推移").2 = false) :=
  ⟨⟨by decide,
      c8_active_routes_custom chainDown okChain "How many ACTIVE users last month?" (by decide)⟩,
    ⟨by decide,
      c8_active_routes_custom chainDown okChain "アクティブユーザー数の推移" (by decide)⟩⟩

/-- C10: a query result that is neither a DataFrame nor a non-empty
list — every plain string and the empty list — never yields a chart,
whatever the question says. -/
theorem c10_nontabular_no_chart (question s : String) :
    generate_visualization question (PyVal.str s) = none
    ∧ generate_visualization question (PyVal.pylist []) = none :=
  ⟨viz_str_none question s, rfl⟩

/-- C2: whenever query execution fails, `process_question` answers with
the fixed apology embedding the execution error message, attaches no
visualization, and its result is the same for every narration service
`respond` — the narration call is never consulted on this path. -/
theorem c2_exec_error_apology (chain custom : String → Except String String)
    (run : String → Except String PyVal)
    (respond : String → String → String → Except String String)
    (question sql m : String)
    (hgen : generate_query chain custom question = Except.ok sql)
    (hrun : run sql = Except.error m) :
    process_question chain custom run respond question =
      Except.ok
        ⟨"申し訳ありません。クエリの実行中にエラーが発生しました: "
            ++ ("Error executing query: " ++ m),
          sql, none⟩ := by
  have hexec : execute_query run sql = PyVal.str ("Error executing query: " ++ m) := by
    simp [execute_query, hrun]
  unfold process_question
  rw [hgen]
  simp only [hexec, isErrorResult, error_string_startsWith, if_true, pyvalStr]

/-- C2 witness: a store failure on the generated query yields exactly
the apology response even though the narration service would itself
raise. -/
theorem c2_exec_error_apology_witness :
    generate_query okChain okChain "Show me the ghosts table"
        = Except.ok "SELECT COUNT(*) FROM users"
    ∧ badStore "SELECT COUNT(*) FROM users" = Except.error "database is locked"
    ∧ process_question okChain okChain badStore downNarration "Show me the ghosts table"
        = Except.ok
          ⟨"申し訳ありません。クエリの実行中にエラーが発生しました: "
              ++ ("Error executing query: " ++ "database is locked"),
            "SELECT COUNT(*) FROM users", none⟩ :=
  ⟨by rfl, by rfl,
    c2_exec_error_apology okChain okChain badStore downNarration
      "Show me the ghosts table" "SELECT COUNT(*) FROM users" "database is locked"
      (by rfl) (by rfl)⟩

/-- C9: failure classification in the orchestrator is a string-prefix
test.  (i) Every executor error value is the string
`"Error executing query: " ++ m`, which starts with `"Error"`;
(ii) a successful query whose result is a string starting with
`"Error"` is sent down the same apology path (no chart, narration never
consulted); (iii) a string result not starting with `"Error"` goes down
the normal path. -/
theorem c9_error_prefix_classification (run : String → Except String PyVal)
    (chain custom : String → Except String String)
    (respond : String → String → String → Except String String)
    (question sql q m s r : String) :
    (run q = Except.error m →
      execute_query run q = PyVal.str ("Error executing query: " ++ m)
        ∧ pyStartsWith ("Error executing query: " ++ m) "Error" = true)
    ∧ (generate_query chain custom question = Except.ok sql →
        run sql = Except.ok (PyVal.str s) →
        pyStartsWith s "Error" = true →
        process_question chain custom run respond question =
          Except.ok
            ⟨"申し訳ありません。クエリの実行中にエラーが発生しました: " ++ s, sql, none⟩)
    ∧ (generate_query chain custom question = Except.ok sql →
        run sql = Except.ok (PyVal.str s) →
        pyStartsWith s "Error" = false →
        respond question sql s = Except.ok r →
        process_question chain custom run respond question =
          Except.ok ⟨r, sql, none⟩) := by
  refine ⟨fun h => ⟨by simp [execute_query, h], error_string_startsWith m⟩, ?_, ?_⟩
  · intro hgen hrun hpre
    have hexec : execute_query run sql = PyVal.str s := by
      simp [execute_query, hrun]
    unfold process_question
    rw [hgen]
    simp only [hexec, isErrorResult, hpre, if_true, pyvalStr]
  · intro hgen hrun hpre hresp
    have hexec : execute_query run sql = PyVal.str s := by
      simp [execute_query, hrun]
    unfold process_question
    rw [hgen]
    simp only [hexec, isErrorResult, hpre, if_false, pyvalStr, Bool.false_eq_true,
      viz_str_none, hresp]

/-- C9 witness: a store that succeeds with the string `"Error: 0 rows"`
drives the orchestrator down the apology path even though the query
succeeded, while an ordinary result string goes down the normal path. -/
theorem c9_error_prefix_classification_witness :
    process_question okChain okChain errorStringStore downNarration "How many rows?"
        = Except.ok
          ⟨"申し訳ありません。クエリの実行中にエラーが発生しました: " ++ "Error: 0 rows",
            "SELECT COUNT(*) FROM users", none⟩
    ∧ process_question okChain okChain demoStore okNarration "How many rows?"
        = Except.ok ⟨"ユーザー数は42人です。", "SELECT COUNT(*) FROM users", none⟩
    ∧ execute_query badStore "SELECT 1"
        = PyVal.str ("Error executing query: " ++ "database is locked") :=
  ⟨(c9_error_prefix_classification errorStringStore okChain okChain downNarration
      "How many rows?" "SELECT COUNT(*) FROM users" "q" "m" "Error: 0 rows" "r").2.1
      (by rfl) (by rfl) (by decide),
    (c9_error_prefix_classification demoStore okChain okChain okNarration
      "How many rows?" "SELECT COUNT(*) FROM users" "q" "m" "[(42,)]"
      "ユーザー数は42人です。").2.2
      (by rfl) (by rfl) (by decide) (by rfl),
    ((c9_error_prefix_classification badStore okChain okChain okNarration
      "x" "y" "SELECT 1" "database is locked" "s" "r").1 (by rfl)).1⟩

/-- C5: the narration-service call inside `process_question` is not
guarded; a raised narration failure escapes the orchestrator to its
caller, contradicting the claim that every remote language-service
failure is caught at its call boundary.  Evaluated at a concrete
failing input: translation and execution succeed, narration raises. -/
theorem c5_narration_failure_escapes :
    process_question okChain okChain demoStore downNarration "How many users are there?"
      = Except.error "narration service unavailable" := by
  rfl

/-- C1 counterexample: `execute_query` performs no read-only check.  A
DELETE statement fed to a store that accepts it is executed — the store
state mutates from 5 rows to 0 — and the store's result is returned,
not an `ExecutionError`. -/
theorem c1_counterexample :
    execute_query_st deleteStore 5 "DELETE FROM users" = (PyVal.str "", 0)
    ∧ isErrorResult (PyVal.str "") = false := by
  exact ⟨rfl, rfl⟩

/-- C1 amended: `execute_query` forwards every query string — write
statements included — unchanged to the store, whose state transition
always takes effect; it returns the error value exactly when the store
itself raises, and otherwise returns the store's result. -/
theorem c1_executor_forwards_all {S : Type}
    (run : S → String → Except String PyVal × S) (s s₁ : S) (q m : String) (v : PyVal) :
    ((execute_query_st run s q).2 = (run s q).2)
    ∧ (run s q = (Except.ok v, s₁) → execute_query_st run s q = (v, s₁))
    ∧ (run s q = (Except.error m, s₁) →
        execute_query_st run s q = (PyVal.str ("Error executing query: " ++ m), s₁)) := by
  refine ⟨?_, fun h => by simp [execute_query_st, h], fun h => by simp [execute_query_st, h]⟩
  rcases h : run s q with ⟨res, s₂⟩
  cases res <;> simp [execute_query_st, h]

/-- C1 witness: the forwarding behaviour evaluated on the stateful demo
store, at the DELETE statement it accepts and at a read it answers. -/
theorem c1_executor_forwards_all_witness :
    (execute_query_st deleteStore 5 "DELETE FROM users").2
        = (deleteStore 5 "DELETE FROM users").2
    ∧ deleteStore 5 "SELECT 1" = (Except.ok (PyVal.str "[]"), 5)
    ∧ execute_query_st deleteStore 5 "SELECT 1" = (PyVal.str "[]", 5) :=
  ⟨(c1_executor_forwards_all deleteStore 5 0 "DELETE FROM users" "m" (PyVal.str "")).1,
    by rfl,
    (c1_executor_forwards_all deleteStore 5 5 "SELECT 1" "m" (PyVal.str "[]")).2.1 (by rfl)⟩

/-- C3 counterexample: `generate_query` can raise.  When the generic
chain fails and the fallback custom-chain call itself fails, the
fallback's exception propagates instead of a query string being
returned. -/
theorem c3_counterexample :
    generate_query chainDown customDown "total spend" = Except.error "fallback failed" := by
  rfl

/-- C3 amended: when the generic translation path raises on a question
that matched no known pattern, `generate_query` falls back to the
custom rule-encoding chain instead of propagating that error; and it
returns a query string whenever the custom chain call it ends up
making succeeds — but a failure of the fallback call itself propagates. -/
theorem c3_generic_failure_falls_back (chain custom : String → Except String String)
    (question e s : String) :
    (isActiveQuestion question = false → chain question = Except.error e →
      generate_query chain custom question = custom question)
    ∧ (custom question = Except.ok s →
      ∃ t, generate_query chain custom question = Except.ok t) := by
  constructor
  · intro hact hchain
    unfold generate_query
    simp [hact, hchain]
  · intro hcustom
    unfold generate_query
    by_cases hact : isActiveQuestion question
    · exact ⟨s, by simp [hact, hcustom]⟩
    · rcases hchain : chain question with e₁ | q₁
      · exact ⟨s, by simp [hact, hchain, hcustom]⟩
      · exact ⟨q₁, by simp [hact, hchain]⟩

/-- C3 witness: the generic chain fails on an unmatched question, the
fallback answers, and `generate_query` returns the fallback's query. -/
theorem c3_generic_failure_falls_back_witness :
    (isActiveQuestion "total spend" = false
      ∧ chainDown "total spend" = Except.error "generic translation failed"
      ∧ generate_query chainDown okChain "total spend" = okChain "total spend")
    ∧ (okChain "total spend" = Except.ok "SELECT COUNT(*) FROM users"
      ∧ ∃ t, generate_query chainDown okChain "total spend" = Except.ok t) :=
  ⟨⟨by decide, by rfl,
      (c3_generic_failure_falls_back chainDown okChain "total spend"
        "generic translation failed" "s").1 (by decide) (by rfl)⟩,
    ⟨by rfl,
      (c3_generic_failure_falls_back chainDown okChain "total spend"
        "e" "SELECT COUNT(*) FROM users").2 (by rfl)⟩⟩

/-- C7 counterexample: the time-series keywords are tested before the
comparison keywords.  The question "割合の変化" contains the proportion
keyword 割合, yet on a 2-column table the chatbot draws a line chart,
not a pie chart, because it also contains the time keyword 変化. -/
theorem c7_counterexample :
    generate_visualization "割合の変化" (PyVal.dataFrame ⟨3, 2⟩) = some Chart.line
    ∧ some Chart.line ≠ some Chart.pie := by
  exact ⟨rfl, by decide⟩

/-- C7 amended: for every question containing a comparison, proportion
or distribution keyword and containing no time-series keyword (those
take priority), the chatbot selects a pie chart when the table has
exactly 2 columns and a bar chart when it has 3 or more columns. -/
theorem c7_comparison_pie_or_bar (question : String) (d : DFrame)
    (hc : hasCompKw question = true) (ht : hasTimeKw question = false) :
    (d.ncols = 2 → generate_visualization question (PyVal.dataFrame d) = some Chart.pie)
    ∧ (3 ≤ d.ncols → generate_visualization question (PyVal.dataFrame d) = some Chart.bar) := by
  constructor
  · intro h2
    unfold generate_visualization toDF
    have hscalar : ¬ (d.nrows ≤ 1 ∧ d.ncols ≤ 1) := by omega
    simp [hscalar, ht, hc, create_comparison_plot, h2]
  · intro h3
    unfold generate_visualization toDF
    have hscalar : ¬ (d.nrows ≤ 1 ∧ d.ncols ≤ 1) := by omega
    have hne : d.ncols ≠ 2 := by omega
    simp [hscalar, ht, hc, create_comparison_plot, hne, create_bar_chart]

/-- C7 witness: a pure proportion question gets a pie chart on a
2-column table and a bar chart on a 3-column table. -/
theorem c7_comparison_pie_or_bar_witness :
    hasCompKw "カテゴリ別の割合" = true ∧ hasTimeKw "カテゴリ別の割合" = false
    ∧ generate_visualization "カテゴリ別の割合" (PyVal.dataFrame ⟨5, 2⟩) = some Chart.pie
    ∧ generate_visualization "カテゴリ別の割合" (PyVal.dataFrame ⟨5, 3⟩) = some Chart.bar :=
  ⟨by decide, by decide,
    (c7_comparison_pie_or_bar "カテゴリ別の割合" ⟨5, 2⟩ (by decide) (by decide)).1 (by decide),
    (c7_comparison_pie_or_bar "カテゴリ別の割合" ⟨5, 3⟩ (by decide) (by decide)).2 (by decide)⟩
